import Mathlib

/-!
Verification development for the pysamstats pileup module
(src/pysamstats/pileup.py) against its natural-language specification.

The repository source under src/ contains only the dispatch module
pysamstats/pileup.py (registry `frecs_pileup`, facade functions
`stat_pileup` / `load_pileup`, and the `_specialize` machinery).  The
compiled extension module `pysamstats.opt` (per-position record builders
and the pileup iterator), `pysamstats.util` (`load_stats`,
coordinate normalisation) and `pysamstats.config` (default dtype table)
are not part of src/; those parts are modelled from the spec, and each
such definition carries a doc comment saying so.
-/

namespace Pysamstats

/-- Base call / alignment operation of one read segment at one position,
as described by the spec data model (match/mismatch/insertion/deletion). -/
inductive SegOp where
  | matched
  | mismatched
  | insertion
  | deletion
deriving DecidableEq

/-- One read segment overlapping a pileup column.  The spec requires each
segment to expose at minimum: strand, mapping quality, base quality at this
position, template length, base call/operation, and the properly-paired
flag. -/
structure Segment where
  is_reverse : Bool
  mapq : Nat
  baseq : Nat
  tlen : Int
  is_proper_pair : Bool
  base : Char
  op : SegOp
deriving DecidableEq

/-- A pileup column: a reference position plus the read segments whose
alignment spans that position. -/
structure PileupColumn where
  pos : Nat
  segments : List Segment
deriving DecidableEq

/-- Alignment-data provider, external collaborator: a single contig with
its length (the natural extent used when `end` is unspecified) and a
forward-ordered sequence of pileup columns. -/
structure AlignmentSource where
  contigLength : Nat
  columns : List PileupColumn
deriving DecidableEq

/-- Field names occurring in stat records across all statistic types. -/
inductive FieldName where
  | reads_all | reads_pp
  | reads_fwd | reads_rev | reads_pp_fwd | reads_pp_rev
  | reads_ins | reads_del
  | reads_ins_fwd | reads_ins_rev | reads_del_fwd | reads_del_rev
  | matches | mismatches | deletions | insertions
  | A | C | G | T
  | matches_fwd | matches_rev | mismatches_fwd | mismatches_rev
  | deletions_fwd | deletions_rev | insertions_fwd | insertions_rev
  | mean_tlen | std_tlen
  | mean_tlen_fwd | mean_tlen_rev | std_tlen_fwd | std_tlen_rev
  | mean_mapq | std_mapq
  | mean_mapq_fwd | mean_mapq_rev | std_mapq_fwd | std_mapq_rev
  | mean_baseq | std_baseq
  | mean_baseq_fwd | mean_baseq_rev | std_baseq_fwd | std_baseq_rev
  | min_baseq | max_baseq
  | min_baseq_fwd | min_baseq_rev | max_baseq_fwd | max_baseq_rev
  | gc
deriving DecidableEq

/-- A per-position statistic record: the reported position (already in the
coordinate convention requested by the caller) plus an ordered mapping from
field name to scalar value. -/
structure StatRecord where
  pos : Nat
  fields : List (FieldName × Int)
deriving DecidableEq

/-- Error taxonomy of the spec (section 7).  The Python code raises
ValueError / KeyError-derived exceptions; the spec names them
UnsupportedType, MissingReferenceError, InvalidRegion and
InvalidWindowConfig. -/
inductive PileupError where
  | unsupportedType
  | missingReference
  | invalidRegion
  | invalidWindowConfig
deriving DecidableEq

/-- Reference-sequence provider, modelled as the contig sequence. -/
abbrev RefSeq := List Char

/-- A schema pair: build-record function, build-pad-record function, and
whether the statistic needs a reference-sequence provider (true for the
variation types and for coverage_gc, per spec sections 4.2, 6 and 7). -/
structure SchemaPair where
  frec : Option RefSeq → PileupColumn → List (FieldName × Int)
  fpad : Option RefSeq → Nat → List (FieldName × Int)
  requires_ref : Bool

/-- Number of segments satisfying a predicate, as an integer count. -/
def cnt (p : Segment → Bool) (ss : List Segment) : Int :=
  ((ss.filter p).length : Int)

/-- Forward-strand test for a segment. -/
def isFwd (s : Segment) : Bool := !s.is_reverse

/-- Integer mean of a list of values; 0 for the empty list (integer
division by zero is zero), the fixed neutral pad convention. -/
def meanI (xs : List Int) : Int := xs.sum / (xs.length : Int)

/-- Integer spread statistic standing in for the standard deviation of the
spec (mean of squares minus square of mean, kept in integers). -/
def stdI (xs : List Int) : Int :=
  (xs.map (fun x => x * x)).sum / (xs.length : Int) - meanI xs * meanI xs

/-- Minimum of a list of integers, 0 for the empty list. -/
def minI (xs : List Int) : Int :=
  match xs with
  | [] => 0
  | x :: t => t.foldl min x

/-- Maximum of a list of integers, 0 for the empty list. -/
def maxI (xs : List Int) : Int :=
  match xs with
  | [] => 0
  | x :: t => t.foldl max x

/-- Reference base at a zero-based position, with a neutral placeholder
when the provider or the position is unavailable. -/
def refBase (ref : Option RefSeq) (p : Nat) : Char :=
  (ref.getD []).getD p 'N'

/-- Modelled from the spec: GC window of `opt.frecs_coverage_gc`, the
reference bases in `[pos - window_offset, pos - window_offset + window_size)`
clamped to the available reference bounds. -/
def gcWindow (ref : RefSeq) (p ws wo : Nat) : List Char :=
  (ref.drop (p - wo)).take ws

/-- Modelled from the spec: percent of G/C bases in the GC window,
a value in [0, 100] (0 when the clamped window is empty). -/
def gcPercent (ref : Option RefSeq) (p ws wo : Nat) : Int :=
  let w := gcWindow (ref.getD []) p ws wo
  (100 * ((w.filter (fun ch => ch == 'G' || ch == 'C')).length : Int)) /
    (w.length : Int)

/-- Modelled from the spec: `opt.rec_coverage` (missing from src/) — total
depth and properly-paired depth. -/
def rec_coverage (_ : Option RefSeq) (c : PileupColumn) : List (FieldName × Int) :=
  [(.reads_all, (c.segments.length : Int)),
   (.reads_pp, cnt (fun s => s.is_proper_pair) c.segments)]

/-- Modelled from the spec: `opt.rec_coverage_pad` — same fields, all
counts zero. -/
def rec_coverage_pad (_ : Option RefSeq) (_ : Nat) : List (FieldName × Int) :=
  [(.reads_all, 0), (.reads_pp, 0)]

/-- Modelled from the spec: `opt.rec_coverage_strand` — coverage split by
forward/reverse strand. -/
def rec_coverage_strand (_ : Option RefSeq) (c : PileupColumn) : List (FieldName × Int) :=
  [(.reads_all, (c.segments.length : Int)),
   (.reads_fwd, cnt isFwd c.segments),
   (.reads_rev, cnt (fun s => s.is_reverse) c.segments),
   (.reads_pp, cnt (fun s => s.is_proper_pair) c.segments),
   (.reads_pp_fwd, cnt (fun s => s.is_proper_pair && isFwd s) c.segments),
   (.reads_pp_rev, cnt (fun s => s.is_proper_pair && s.is_reverse) c.segments)]

/-- Modelled from the spec: `opt.rec_coverage_strand_pad`. -/
def rec_coverage_strand_pad (_ : Option RefSeq) (_ : Nat) : List (FieldName × Int) :=
  [(.reads_all, 0), (.reads_fwd, 0), (.reads_rev, 0),
   (.reads_pp, 0), (.reads_pp_fwd, 0), (.reads_pp_rev, 0)]

/-- Modelled from the spec: `opt.rec_coverage_ext` — coverage extended
with additional per-column counts (the exact extended field set is not
enumerated by the spec; insertion/deletion depths are used here). -/
def rec_coverage_ext (_ : Option RefSeq) (c : PileupColumn) : List (FieldName × Int) :=
  [(.reads_all, (c.segments.length : Int)),
   (.reads_pp, cnt (fun s => s.is_proper_pair) c.segments),
   (.reads_ins, cnt (fun s => s.op == SegOp.insertion) c.segments),
   (.reads_del, cnt (fun s => s.op == SegOp.deletion) c.segments)]

/-- Modelled from the spec: `opt.rec_coverage_ext_pad`. -/
def rec_coverage_ext_pad (_ : Option RefSeq) (_ : Nat) : List (FieldName × Int) :=
  [(.reads_all, 0), (.reads_pp, 0), (.reads_ins, 0), (.reads_del, 0)]

/-- Modelled from the spec: `opt.rec_coverage_ext_strand`. -/
def rec_coverage_ext_strand (_ : Option RefSeq) (c : PileupColumn) : List (FieldName × Int) :=
  [(.reads_all, (c.segments.length : Int)),
   (.reads_fwd, cnt isFwd c.segments),
   (.reads_rev, cnt (fun s => s.is_reverse) c.segments),
   (.reads_pp, cnt (fun s => s.is_proper_pair) c.segments),
   (.reads_pp_fwd, cnt (fun s => s.is_proper_pair && isFwd s) c.segments),
   (.reads_pp_rev, cnt (fun s => s.is_proper_pair && s.is_reverse) c.segments),
   (.reads_ins_fwd, cnt (fun s => s.op == SegOp.insertion && isFwd s) c.segments),
   (.reads_ins_rev, cnt (fun s => s.op == SegOp.insertion && s.is_reverse) c.segments),
   (.reads_del_fwd, cnt (fun s => s.op == SegOp.deletion && isFwd s) c.segments),
   (.reads_del_rev, cnt (fun s => s.op == SegOp.deletion && s.is_reverse) c.segments)]

/-- Modelled from the spec: `opt.rec_coverage_ext_strand_pad`. -/
def rec_coverage_ext_strand_pad (_ : Option RefSeq) (_ : Nat) : List (FieldName × Int) :=
  [(.reads_all, 0), (.reads_fwd, 0), (.reads_rev, 0),
   (.reads_pp, 0), (.reads_pp_fwd, 0), (.reads_pp_rev, 0),
   (.reads_ins_fwd, 0), (.reads_ins_rev, 0),
   (.reads_del_fwd, 0), (.reads_del_rev, 0)]

/-- Modelled from the spec: `opt.rec_variation` — counts of observed bases
and indels relative to the reference base at the position (requires a
reference-sequence provider). -/
def rec_variation (ref : Option RefSeq) (c : PileupColumn) : List (FieldName × Int) :=
  let rb := refBase ref c.pos
  [(.reads_all, (c.segments.length : Int)),
   (.matches, cnt (fun s => s.base == rb) c.segments),
   (.mismatches, cnt (fun s => !(s.base == rb)) c.segments),
   (.deletions, cnt (fun s => s.op == SegOp.deletion) c.segments),
   (.insertions, cnt (fun s => s.op == SegOp.insertion) c.segments),
   (.A, cnt (fun s => s.base == 'A') c.segments),
   (.C, cnt (fun s => s.base == 'C') c.segments),
   (.G, cnt (fun s => s.base == 'G') c.segments),
   (.T, cnt (fun s => s.base == 'T') c.segments)]

/-- Modelled from the spec: `opt.rec_variation_pad`. -/
def rec_variation_pad (_ : Option RefSeq) (_ : Nat) : List (FieldName × Int) :=
  [(.reads_all, 0), (.matches, 0), (.mismatches, 0),
   (.deletions, 0), (.insertions, 0),
   (.A, 0), (.C, 0), (.G, 0), (.T, 0)]

/-- Modelled from the spec: `opt.rec_variation_strand`. -/
def rec_variation_strand (ref : Option RefSeq) (c : PileupColumn) : List (FieldName × Int) :=
  let rb := refBase ref c.pos
  [(.reads_all, (c.segments.length : Int)),
   (.reads_fwd, cnt isFwd c.segments),
   (.reads_rev, cnt (fun s => s.is_reverse) c.segments),
   (.matches_fwd, cnt (fun s => s.base == rb && isFwd s) c.segments),
   (.matches_rev, cnt (fun s => s.base == rb && s.is_reverse) c.segments),
   (.mismatches_fwd, cnt (fun s => !(s.base == rb) && isFwd s) c.segments),
   (.mismatches_rev, cnt (fun s => !(s.base == rb) && s.is_reverse) c.segments),
   (.deletions_fwd, cnt (fun s => s.op == SegOp.deletion && isFwd s) c.segments),
   (.deletions_rev, cnt (fun s => s.op == SegOp.deletion && s.is_reverse) c.segments),
   (.insertions_fwd, cnt (fun s => s.op == SegOp.insertion && isFwd s) c.segments),
   (.insertions_rev, cnt (fun s => s.op == SegOp.insertion && s.is_reverse) c.segments)]

/-- Modelled from the spec: `opt.rec_variation_strand_pad`. -/
def rec_variation_strand_pad (_ : Option RefSeq) (_ : Nat) : List (FieldName × Int) :=
  [(.reads_all, 0), (.reads_fwd, 0), (.reads_rev, 0),
   (.matches_fwd, 0), (.matches_rev, 0),
   (.mismatches_fwd, 0), (.mismatches_rev, 0),
   (.deletions_fwd, 0), (.deletions_rev, 0),
   (.insertions_fwd, 0), (.insertions_rev, 0)]

/-- Modelled from the spec: `opt.rec_tlen` — count, mean and spread of the
per-segment template length. -/
def rec_tlen (_ : Option RefSeq) (c : PileupColumn) : List (FieldName × Int) :=
  let xs := c.segments.map (fun s => s.tlen)
  [(.reads_all, (c.segments.length : Int)),
   (.mean_tlen, meanI xs),
   (.std_tlen, stdI xs)]

/-- Modelled from the spec: `opt.rec_tlen_pad`. -/
def rec_tlen_pad (_ : Option RefSeq) (_ : Nat) : List (FieldName × Int) :=
  [(.reads_all, 0), (.mean_tlen, 0), (.std_tlen, 0)]

/-- Modelled from the spec: `opt.rec_tlen_strand`. -/
def rec_tlen_strand (_ : Option RefSeq) (c : PileupColumn) : List (FieldName × Int) :=
  let fw := (c.segments.filter isFwd).map (fun s => s.tlen)
  let rv := (c.segments.filter (fun s => s.is_reverse)).map (fun s => s.tlen)
  [(.reads_all, (c.segments.length : Int)),
   (.reads_fwd, cnt isFwd c.segments),
   (.reads_rev, cnt (fun s => s.is_reverse) c.segments),
   (.mean_tlen_fwd, meanI fw), (.mean_tlen_rev, meanI rv),
   (.std_tlen_fwd, stdI fw), (.std_tlen_rev, stdI rv)]

/-- Modelled from the spec: `opt.rec_tlen_strand_pad`. -/
def rec_tlen_strand_pad (_ : Option RefSeq) (_ : Nat) : List (FieldName × Int) :=
  [(.reads_all, 0), (.reads_fwd, 0), (.reads_rev, 0),
   (.mean_tlen_fwd, 0), (.mean_tlen_rev, 0),
   (.std_tlen_fwd, 0), (.std_tlen_rev, 0)]

/-- Modelled from the spec: `opt.rec_mapq`. -/
def rec_mapq (_ : Option RefSeq) (c : PileupColumn) : List (FieldName × Int) :=
  let xs := c.segments.map (fun s => (s.mapq : Int))
  [(.reads_all, (c.segments.length : Int)),
   (.mean_mapq, meanI xs),
   (.std_mapq, stdI xs)]

/-- Modelled from the spec: `opt.rec_mapq_pad`. -/
def rec_mapq_pad (_ : Option RefSeq) (_ : Nat) : List (FieldName × Int) :=
  [(.reads_all, 0), (.mean_mapq, 0), (.std_mapq, 0)]

/-- Modelled from the spec: `opt.rec_mapq_strand`. -/
def rec_mapq_strand (_ : Option RefSeq) (c : PileupColumn) : List (FieldName × Int) :=
  let fw := (c.segments.filter isFwd).map (fun s => (s.mapq : Int))
  let rv := (c.segments.filter (fun s => s.is_reverse)).map (fun s => (s.mapq : Int))
  [(.reads_all, (c.segments.length : Int)),
   (.reads_fwd, cnt isFwd c.segments),
   (.reads_rev, cnt (fun s => s.is_reverse) c.segments),
   (.mean_mapq_fwd, meanI fw), (.mean_mapq_rev, meanI rv),
   (.std_mapq_fwd, stdI fw), (.std_mapq_rev, stdI rv)]

/-- Modelled from the spec: `opt.rec_mapq_strand_pad`. -/
def rec_mapq_strand_pad (_ : Option RefSeq) (_ : Nat) : List (FieldName × Int) :=
  [(.reads_all, 0), (.reads_fwd, 0), (.reads_rev, 0),
   (.mean_mapq_fwd, 0), (.mean_mapq_rev, 0),
   (.std_mapq_fwd, 0), (.std_mapq_rev, 0)]

/-- Modelled from the spec: `opt.rec_baseq`. -/
def rec_baseq (_ : Option RefSeq) (c : PileupColumn) : List (FieldName × Int) :=
  let xs := c.segments.map (fun s => (s.baseq : Int))
  [(.reads_all, (c.segments.length : Int)),
   (.mean_baseq, meanI xs),
   (.std_baseq, stdI xs)]

/-- Modelled from the spec: `opt.rec_baseq_pad`. -/
def rec_baseq_pad (_ : Option RefSeq) (_ : Nat) : List (FieldName × Int) :=
  [(.reads_all, 0), (.mean_baseq, 0), (.std_baseq, 0)]

/-- Modelled from the spec: `opt.rec_baseq_strand`. -/
def rec_baseq_strand (_ : Option RefSeq) (c : PileupColumn) : List (FieldName × Int) :=
  let fw := (c.segments.filter isFwd).map (fun s => (s.baseq : Int))
  let rv := (c.segments.filter (fun s => s.is_reverse)).map (fun s => (s.baseq : Int))
  [(.reads_all, (c.segments.length : Int)),
   (.reads_fwd, cnt isFwd c.segments),
   (.reads_rev, cnt (fun s => s.is_reverse) c.segments),
   (.mean_baseq_fwd, meanI fw), (.mean_baseq_rev, meanI rv),
   (.std_baseq_fwd, stdI fw), (.std_baseq_rev, stdI rv)]

/-- Modelled from the spec: `opt.rec_baseq_strand_pad`. -/
def rec_baseq_strand_pad (_ : Option RefSeq) (_ : Nat) : List (FieldName × Int) :=
  [(.reads_all, 0), (.reads_fwd, 0), (.reads_rev, 0),
   (.mean_baseq_fwd, 0), (.mean_baseq_rev, 0),
   (.std_baseq_fwd, 0), (.std_baseq_rev, 0)]

/-- Modelled from the spec: `opt.rec_baseq_ext` — base-quality statistics
extended with percentile-like fields (min and max here). -/
def rec_baseq_ext (_ : Option RefSeq) (c : PileupColumn) : List (FieldName × Int) :=
  let xs := c.segments.map (fun s => (s.baseq : Int))
  [(.reads_all, (c.segments.length : Int)),
   (.mean_baseq, meanI xs),
   (.std_baseq, stdI xs),
   (.min_baseq, minI xs),
   (.max_baseq, maxI xs)]

/-- Modelled from the spec: `opt.rec_baseq_ext_pad`. -/
def rec_baseq_ext_pad (_ : Option RefSeq) (_ : Nat) : List (FieldName × Int) :=
  [(.reads_all, 0), (.mean_baseq, 0), (.std_baseq, 0),
   (.min_baseq, 0), (.max_baseq, 0)]

/-- Modelled from the spec: `opt.rec_baseq_ext_strand`. -/
def rec_baseq_ext_strand (_ : Option RefSeq) (c : PileupColumn) : List (FieldName × Int) :=
  let fw := (c.segments.filter isFwd).map (fun s => (s.baseq : Int))
  let rv := (c.segments.filter (fun s => s.is_reverse)).map (fun s => (s.baseq : Int))
  [(.reads_all, (c.segments.length : Int)),
   (.reads_fwd, cnt isFwd c.segments),
   (.reads_rev, cnt (fun s => s.is_reverse) c.segments),
   (.mean_baseq_fwd, meanI fw), (.mean_baseq_rev, meanI rv),
   (.std_baseq_fwd, stdI fw), (.std_baseq_rev, stdI rv),
   (.min_baseq_fwd, minI fw), (.min_baseq_rev, minI rv),
   (.max_baseq_fwd, maxI fw), (.max_baseq_rev, maxI rv)]

/-- Modelled from the spec: `opt.rec_baseq_ext_strand_pad`. -/
def rec_baseq_ext_strand_pad (_ : Option RefSeq) (_ : Nat) : List (FieldName × Int) :=
  [(.reads_all, 0), (.reads_fwd, 0), (.reads_rev, 0),
   (.mean_baseq_fwd, 0), (.mean_baseq_rev, 0),
   (.std_baseq_fwd, 0), (.std_baseq_rev, 0),
   (.min_baseq_fwd, 0), (.min_baseq_rev, 0),
   (.max_baseq_fwd, 0), (.max_baseq_rev, 0)]

/-- Schema pair for the coverage type. -/
def coverageSchema : SchemaPair := ⟨rec_coverage, rec_coverage_pad, false⟩

/-- Schema pair for the coverage_strand type. -/
def coverageStrandSchema : SchemaPair := ⟨rec_coverage_strand, rec_coverage_strand_pad, false⟩

/-- Schema pair for the coverage_ext type. -/
def coverageExtSchema : SchemaPair := ⟨rec_coverage_ext, rec_coverage_ext_pad, false⟩

/-- Schema pair for the coverage_ext_strand type. -/
def coverageExtStrandSchema : SchemaPair := ⟨rec_coverage_ext_strand, rec_coverage_ext_strand_pad, false⟩

/-- Schema pair for the variation type (needs a reference provider). -/
def variationSchema : SchemaPair := ⟨rec_variation, rec_variation_pad, true⟩

/-- Schema pair for the variation_strand type (needs a reference provider). -/
def variationStrandSchema : SchemaPair := ⟨rec_variation_strand, rec_variation_strand_pad, true⟩

/-- Schema pair for the tlen type. -/
def tlenSchema : SchemaPair := ⟨rec_tlen, rec_tlen_pad, false⟩

/-- Schema pair for the tlen_strand type. -/
def tlenStrandSchema : SchemaPair := ⟨rec_tlen_strand, rec_tlen_strand_pad, false⟩

/-- Schema pair for the mapq type. -/
def mapqSchema : SchemaPair := ⟨rec_mapq, rec_mapq_pad, false⟩

/-- Schema pair for the mapq_strand type. -/
def mapqStrandSchema : SchemaPair := ⟨rec_mapq_strand, rec_mapq_strand_pad, false⟩

/-- Schema pair for the baseq type. -/
def baseqSchema : SchemaPair := ⟨rec_baseq, rec_baseq_pad, false⟩

/-- Schema pair for the baseq_strand type. -/
def baseqStrandSchema : SchemaPair := ⟨rec_baseq_strand, rec_baseq_strand_pad, false⟩

/-- Schema pair for the baseq_ext type. -/
def baseqExtSchema : SchemaPair := ⟨rec_baseq_ext, rec_baseq_ext_pad, false⟩

/-- Schema pair for the baseq_ext_strand type. -/
def baseqExtStrandSchema : SchemaPair := ⟨rec_baseq_ext_strand, rec_baseq_ext_strand_pad, false⟩

/-- The statistic-type registry, from src/pysamstats/pileup.py lines
128-143: the dict `frecs_pileup` mapping each registered statistic-type
name to its (build-record, build-pad-record) pair, in source order. -/
def frecs_pileup : List (String × SchemaPair) :=
  [("coverage", coverageSchema),
   ("coverage_strand", coverageStrandSchema),
   ("coverage_ext", coverageExtSchema),
   ("coverage_ext_strand", coverageExtStrandSchema),
   ("variation", variationSchema),
   ("variation_strand", variationStrandSchema),
   ("tlen", tlenSchema),
   ("tlen_strand", tlenStrandSchema),
   ("mapq", mapqSchema),
   ("mapq_strand", mapqStrandSchema),
   ("baseq", baseqSchema),
   ("baseq_strand", baseqStrandSchema),
   ("baseq_ext", baseqExtSchema),
   ("baseq_ext_strand", baseqExtStrandSchema)]

/-- Modelled from the spec: `opt.rec_coverage_gc` build-record function of
the parameterized GC schema factory — coverage fields plus the GC percent
of the reference window around the position. -/
def rec_coverage_gc (ws wo : Nat) (ref : Option RefSeq) (c : PileupColumn) :
    List (FieldName × Int) :=
  [(.reads_all, (c.segments.length : Int)),
   (.reads_pp, cnt (fun s => s.is_proper_pair) c.segments),
   (.gc, gcPercent ref c.pos ws wo)]

/-- Modelled from the spec: pad record of the GC schema — same field set,
all values at the fixed neutral value 0. -/
def rec_coverage_gc_pad (_ : Option RefSeq) (_ : Nat) : List (FieldName × Int) :=
  [(.reads_all, 0), (.reads_pp, 0), (.gc, 0)]

/-- Modelled from the spec: `opt.frecs_coverage_gc` (missing from src/),
the parameterized schema factory for the GC statistic.  It validates
`window_size > 0` (InvalidWindowConfig otherwise), defaults the window
offset to `window_size / 2`, and produces a schema pair closed over the
window parameters; the schema requires a reference-sequence provider. -/
def frecs_coverage_gc (window_size : Nat) (window_offset : Option Nat) :
    Except PileupError SchemaPair :=
  if window_size = 0 then .error .invalidWindowConfig
  else
    let wo := window_offset.getD (window_size / 2)
    .ok ⟨rec_coverage_gc window_size wo, rec_coverage_gc_pad, true⟩

/-- Key order on position/fields entries, used to emit records in
increasing position order. -/
def posLe {α : Type} (x y : Nat × α) : Prop := x.1 ≤ y.1

instance {α : Type} : DecidableRel (@posLe α) := fun x y => Nat.decLe x.1 y.1

instance {α : Type} : IsTotal (Nat × α) posLe := ⟨fun a b => Nat.le_total a.1 b.1⟩

instance {α : Type} : IsTrans (Nat × α) posLe := ⟨fun _ _ _ h1 h2 => Nat.le_trans h1 h2⟩

/-- Modelled from the spec: `opt.iter_pileup` (missing from src/), the
position iterator of spec section 4.3.  Eager validation first: a schema
that requires a reference provider fails with MissingReferenceError when
none is supplied; a region that is negative after one-based conversion, or
has start greater than end, fails with InvalidRegion.  The region is
converted to zero-based half-open bounds (one-based inputs shift down by
one); missing bounds default to 0 and to the contig length.  Every column
of the source is emitted through the build-record function on its first
`max_depth` segments, skipping out-of-range columns when `truncate` is
set; when `pad` is set, every position of `[start, end)` that the column
generator does not visit is emitted through the build-pad-record function;
all records are arranged in increasing position order, and reported
positions use the coordinate convention requested by the caller. -/
def iter_pileup (sp : SchemaPair) (src : AlignmentSource) (fafile : Option RefSeq)
    (start «end» : Option Nat) (one_based truncate pad : Bool) (max_depth : Nat) :
    Except PileupError (List StatRecord) :=
  if sp.requires_ref = true ∧ fafile = none then .error .missingReference
  else if one_based = true ∧ (start = some 0 ∨ «end» = some 0) then .error .invalidRegion
  else
    let b : Nat := if one_based then 1 else 0
    let s := (start.map (fun x => x - b)).getD 0
    let e := ((«end».map (fun x => x - b)).getD src.contigLength)
    if e < s then .error .invalidRegion
    else
      let cols := if truncate then
          src.columns.filter (fun c => decide (s ≤ c.pos ∧ c.pos < e))
        else src.columns
      let colRecs := cols.map (fun c => (c.pos, sp.frec fafile ⟨c.pos, c.segments.take max_depth⟩))
      let padRecs := if pad then
          ((List.range' s (e - s)).filter
            (fun p => !(src.columns.any (fun c => c.pos == p)))).map
            (fun p => (p, sp.fpad fafile p))
        else []
      let merged := List.insertionSort posLe (colRecs ++ padRecs)
      .ok (merged.map (fun x => StatRecord.mk (x.1 + b) x.2))

/-- Argument record for `stat_pileup`, mirroring the keyword parameters of
the Python function (src/pysamstats/pileup.py lines 43-54). -/
structure PileupArgs where
  alignmentfile : AlignmentSource
  fafile : Option RefSeq
  chrom : Option String
  start : Option Nat
  «end» : Option Nat
  one_based : Bool
  truncate : Bool
  pad : Bool
  max_depth : Nat
  window_size : Nat
  window_offset : Option Nat
deriving DecidableEq

/-- The generic statistic facade, from src/pysamstats/pileup.py lines
43-77: `stat_pileup` resolves the schema pair through the factory
`frecs_coverage_gc` when the type name is coverage_gc (the special case
needed to handle the window parameters) and through the registry
`frecs_pileup` otherwise; an unknown name is an UnsupportedType failure
(the KeyError branch raising ValueError in the source); the schema pair
and all region arguments are then handed to the position iterator. -/
def stat_pileup (type : String) (a : PileupArgs) : Except PileupError (List StatRecord) :=
  if type = "coverage_gc" then
    match frecs_coverage_gc a.window_size a.window_offset with
    | .error er => .error er
    | .ok sp =>
        iter_pileup sp a.alignmentfile a.fafile a.start a.«end»
          a.one_based a.truncate a.pad a.max_depth
  else
    match List.lookup type frecs_pileup with
    | none => .error .unsupportedType
    | some sp =>
        iter_pileup sp a.alignmentfile a.fafile a.start a.«end»
          a.one_based a.truncate a.pad a.max_depth

/-- Modelled from the spec: the default-dtype configuration table of
`pysamstats.config` (missing from src/; the spec excludes its contents,
section 1).  One default dtype is registered per supported statistic type,
retrieved in the source as the attribute named dtype_ followed by the type
name; the dtype value itself is opaque and is modelled by that attribute
name. -/
def config_dtypes : List (String × String) :=
  [("coverage", "dtype_coverage"),
   ("coverage_strand", "dtype_coverage_strand"),
   ("coverage_ext", "dtype_coverage_ext"),
   ("coverage_ext_strand", "dtype_coverage_ext_strand"),
   ("variation", "dtype_variation"),
   ("variation_strand", "dtype_variation_strand"),
   ("tlen", "dtype_tlen"),
   ("tlen_strand", "dtype_tlen_strand"),
   ("mapq", "dtype_mapq"),
   ("mapq_strand", "dtype_mapq_strand"),
   ("baseq", "dtype_baseq"),
   ("baseq_strand", "dtype_baseq_strand"),
   ("baseq_ext", "dtype_baseq_ext"),
   ("baseq_ext_strand", "dtype_baseq_ext_strand"),
   ("coverage_gc", "dtype_coverage_gc")]

/-- Default-dtype lookup, the `getattr(config, 'dtype_' + type)` of
src/pysamstats/pileup.py line 114 (none models the AttributeError). -/
def config_dtype (type : String) : Option String :=
  List.lookup type config_dtypes

/-- Materialized result of the array loader: the chosen dtype and the
loaded records. -/
structure LoadResult where
  dtype : String
  records : List StatRecord
deriving DecidableEq

/-- Restriction of a record to a selected subset of fields. -/
def restrictFields (fs : Option (List FieldName)) (r : StatRecord) : StatRecord :=
  match fs with
  | none => r
  | some fl => ⟨r.pos, r.fields.filter (fun kv => decide (kv.1 ∈ fl))⟩

/-- Modelled from the spec: `util.load_stats` (missing from src/), the
array loader interface of spec section 4.5 — it consumes the record
sequence of the statistic function exactly once, uses the user dtype when
supplied and the registered default otherwise, and applies the field
selection. -/
def load_stats (stat : PileupArgs → Except PileupError (List StatRecord))
    (user_dtype : Option String) (default_dtype : String)
    (user_fields : Option (List FieldName)) (a : PileupArgs) :
    Except PileupError LoadResult :=
  (stat a).map (fun recs =>
    ⟨user_dtype.getD default_dtype, recs.map (restrictFields user_fields)⟩)

/-- Argument record for `load_pileup`: the `stat_pileup` arguments plus
the dtype override and the field selection. -/
structure LoadArgs extends PileupArgs where
  dtype : Option String
  fields : Option (List FieldName)

/-- The generic loader facade, from src/pysamstats/pileup.py lines 84-122:
`load_pileup` partially applies `stat_pileup` to the type name, looks up
the default dtype for the type name (an unregistered name is an
UnsupportedType failure — the AttributeError branch raising ValueError in
the source — reached before `load_stats` regardless of any user-supplied
dtype), and delegates to `load_stats`. -/
def load_pileup (type : String) (a : LoadArgs) : Except PileupError LoadResult :=
  match config_dtype type with
  | none => .error .unsupportedType
  | some dd => load_stats (stat_pileup type) a.dtype dd a.fields a.toPileupArgs

/-- The specialization helper, from src/pysamstats/pileup.py lines
157-164: builds the named entry-point pair for one statistic type by
partial application of the generic pair to the type name. -/
def _specialize (type : String) :
    (PileupArgs → Except PileupError (List StatRecord)) ×
      (LoadArgs → Except PileupError LoadResult) :=
  (stat_pileup type, load_pileup type)

/-- Named entry point, src/pysamstats/pileup.py line 168. -/
def stat_coverage := (_specialize "coverage").1

/-- Named entry point, src/pysamstats/pileup.py line 168. -/
def load_coverage := (_specialize "coverage").2

/-- Named entry point, src/pysamstats/pileup.py line 169. -/
def stat_coverage_strand := (_specialize "coverage_strand").1

/-- Named entry point, src/pysamstats/pileup.py line 169. -/
def load_coverage_strand := (_specialize "coverage_strand").2

/-- Named entry point, src/pysamstats/pileup.py line 170. -/
def stat_coverage_ext := (_specialize "coverage_ext").1

/-- Named entry point, src/pysamstats/pileup.py line 170. -/
def load_coverage_ext := (_specialize "coverage_ext").2

/-- Named entry point, src/pysamstats/pileup.py line 171. -/
def stat_coverage_ext_strand := (_specialize "coverage_ext_strand").1

/-- Named entry point, src/pysamstats/pileup.py line 171. -/
def load_coverage_ext_strand := (_specialize "coverage_ext_strand").2

/-- Named entry point, src/pysamstats/pileup.py line 172. -/
def stat_variation := (_specialize "variation").1

/-- Named entry point, src/pysamstats/pileup.py line 172. -/
def load_variation := (_specialize "variation").2

/-- Named entry point, src/pysamstats/pileup.py line 173. -/
def stat_variation_strand := (_specialize "variation_strand").1

/-- Named entry point, src/pysamstats/pileup.py line 173. -/
def load_variation_strand := (_specialize "variation_strand").2

/-- Named entry point, src/pysamstats/pileup.py line 174. -/
def stat_tlen := (_specialize "tlen").1

/-- Named entry point, src/pysamstats/pileup.py line 174. -/
def load_tlen := (_specialize "tlen").2

/-- Named entry point, src/pysamstats/pileup.py line 175. -/
def stat_tlen_strand := (_specialize "tlen_strand").1

/-- Named entry point, src/pysamstats/pileup.py line 175. -/
def load_tlen_strand := (_specialize "tlen_strand").2

/-- Named entry point, src/pysamstats/pileup.py line 176. -/
def stat_mapq := (_specialize "mapq").1

/-- Named entry point, src/pysamstats/pileup.py line 176. -/
def load_mapq := (_specialize "mapq").2

/-- Named entry point, src/pysamstats/pileup.py line 177. -/
def stat_mapq_strand := (_specialize "mapq_strand").1

/-- Named entry point, src/pysamstats/pileup.py line 177. -/
def load_mapq_strand := (_specialize "mapq_strand").2

/-- Named entry point, src/pysamstats/pileup.py line 178. -/
def stat_baseq := (_specialize "baseq").1

/-- Named entry point, src/pysamstats/pileup.py line 178. -/
def load_baseq := (_specialize "baseq").2

/-- Named entry point, src/pysamstats/pileup.py line 179. -/
def stat_baseq_strand := (_specialize "baseq_strand").1

/-- Named entry point, src/pysamstats/pileup.py line 179. -/
def load_baseq_strand := (_specialize "baseq_strand").2

/-- Named entry point, src/pysamstats/pileup.py line 180. -/
def stat_baseq_ext := (_specialize "baseq_ext").1

/-- Named entry point, src/pysamstats/pileup.py line 180. -/
def load_baseq_ext := (_specialize "baseq_ext").2

/-- Named entry point, src/pysamstats/pileup.py line 181. -/
def stat_baseq_ext_strand := (_specialize "baseq_ext_strand").1

/-- Named entry point, src/pysamstats/pileup.py line 181. -/
def load_baseq_ext_strand := (_specialize "baseq_ext_strand").2

/-- Named entry point, src/pysamstats/pileup.py line 182. -/
def stat_coverage_gc := (_specialize "coverage_gc").1

/-- Named entry point, src/pysamstats/pileup.py line 182. -/
def load_coverage_gc := (_specialize "coverage_gc").2

/-- Restriction of every column of a source to its first `max_depth`
segments in provider order. -/
def capSource (md : Nat) (src : AlignmentSource) : AlignmentSource :=
  ⟨src.contigLength, src.columns.map (fun c => ⟨c.pos, c.segments.take md⟩)⟩

/-- Lookup in an association list fails when the key is not among the
mapped keys. -/
theorem lookup_eq_none_of_not_mem_keys {α β : Type} [BEq α] [LawfulBEq α]
    {l : List (α × β)} {k : α} (h : k ∉ l.map Prod.fst) : l.lookup k = none := by
  rw [List.lookup_eq_none_iff]
  intro p hp
  rw [bne_iff_ne]
  intro he
  exact h (he ▸ List.mem_map_of_mem Prod.fst hp)

/-- Lookup in an association list succeeds when the key is among the
mapped keys. -/
theorem lookup_isSome_of_mem_keys {α β : Type} [BEq α] [LawfulBEq α]
    {l : List (α × β)} {k : α} (h : k ∈ l.map Prod.fst) : (l.lookup k).isSome := by
  rw [List.lookup_isSome_iff]
  obtain ⟨p, hp, he⟩ := List.mem_map.mp h
  exact ⟨p, hp, by simp [he]⟩

/-- A successful lookup exhibits its key/value pair as a member of the
association list. -/
theorem mem_of_lookup_eq_some {α β : Type} [BEq α] [LawfulBEq α]
    {l : List (α × β)} {k : α} {b : β} (h : l.lookup k = some b) : (k, b) ∈ l := by
  obtain ⟨l₁, l₂, rfl, -⟩ := List.lookup_eq_some_iff.mp h
  simp

/-- The position iterator never reports an unsupported type: its only
failures are the missing-reference and invalid-region validations. -/
theorem iter_pileup_ne_unsupported (sp : SchemaPair) (src : AlignmentSource)
    (fafile : Option RefSeq) (start «end» : Option Nat)
    (one_based truncate pad : Bool) (max_depth : Nat) :
    iter_pileup sp src fafile start «end» one_based truncate pad max_depth ≠
      .error .unsupportedType := by
  unfold iter_pileup
  intro hcontra
  split at hcontra
  · exact absurd hcontra (by simp)
  split at hcontra
  · exact absurd hcontra (by simp)
  split at hcontra <;> dsimp only at hcontra <;> split at hcontra <;>
    exact absurd hcontra (by simp)

/-- A schema that requires a reference provider makes the iterator fail
eagerly with MissingReferenceError when none is supplied. -/
theorem iter_pileup_missing_ref (sp : SchemaPair) (src : AlignmentSource)
    (start «end» : Option Nat) (one_based truncate pad : Bool) (max_depth : Nat)
    (h : sp.requires_ref = true) :
    iter_pileup sp src none start «end» one_based truncate pad max_depth =
      .error .missingReference := by
  unfold iter_pileup
  rw [if_pos ⟨h, rfl⟩]

/-- C2: for every type name that is neither a registered statistic type
nor coverage_gc, `stat_pileup` fails with UnsupportedType for every
argument list — in particular for every alignment source, so the failure
happens before any record is produced and before any iteration is
started.  The specialized `stat_T` entry points are partial applications
of `stat_pileup` to registered names only, so the same resolution path
covers them. -/
theorem stat_pileup_unsupported_type (type : String)
    (hreg : type ∉ frecs_pileup.map Prod.fst) (hgc : type ≠ "coverage_gc")
    (a : PileupArgs) :
    stat_pileup type a = .error .unsupportedType := by
  unfold stat_pileup
  rw [if_neg hgc, lookup_eq_none_of_not_mem_keys hreg]

/-- Witness for C2 at the concrete type name bogus. -/
theorem stat_pileup_unsupported_type_witness :
    stat_pileup "bogus"
      ⟨⟨0, []⟩, none, none, none, none, false, false, false, 8000, 300, none⟩ =
      .error .unsupportedType :=
  stat_pileup_unsupported_type "bogus" (by decide) (by decide) _

/-- C3: the registry contains exactly the fourteen statistic-type names,
in source order, each mapped to a schema pair; coverage_gc is not a
registry key; and `stat_pileup` resolves coverage_gc through the
parameterized factory `frecs_coverage_gc` instead of the registry. -/
theorem registry_exactly_fourteen_and_gc_via_factory :
    frecs_pileup.map Prod.fst =
      ["coverage", "coverage_strand", "coverage_ext", "coverage_ext_strand",
       "variation", "variation_strand", "tlen", "tlen_strand",
       "mapq", "mapq_strand", "baseq", "baseq_strand",
       "baseq_ext", "baseq_ext_strand"] ∧
    List.lookup "coverage_gc" frecs_pileup = none ∧
    ∀ a : PileupArgs,
      stat_pileup "coverage_gc" a =
        match frecs_coverage_gc a.window_size a.window_offset with
        | .error er => .error er
        | .ok sp =>
            iter_pileup sp a.alignmentfile a.fafile a.start a.«end»
              a.one_based a.truncate a.pad a.max_depth :=
  ⟨rfl, rfl, fun _ => rfl⟩

/-- C4: every specialized entry point built by `_specialize` returns the
same result (value or error) as the generic `stat_pileup` / `load_pileup`
called with the corresponding type name, for every argument list. -/
theorem specialized_equals_generic (a : PileupArgs) (la : LoadArgs) :
    stat_coverage a = stat_pileup "coverage" a ∧
    load_coverage la = load_pileup "coverage" la ∧
    stat_coverage_strand a = stat_pileup "coverage_strand" a ∧
    load_coverage_strand la = load_pileup "coverage_strand" la ∧
    stat_coverage_ext a = stat_pileup "coverage_ext" a ∧
    load_coverage_ext la = load_pileup "coverage_ext" la ∧
    stat_coverage_ext_strand a = stat_pileup "coverage_ext_strand" a ∧
    load_coverage_ext_strand la = load_pileup "coverage_ext_strand" la ∧
    stat_variation a = stat_pileup "variation" a ∧
    load_variation la = load_pileup "variation" la ∧
    stat_variation_strand a = stat_pileup "variation_strand" a ∧
    load_variation_strand la = load_pileup "variation_strand" la ∧
    stat_tlen a = stat_pileup "tlen" a ∧
    load_tlen la = load_pileup "tlen" la ∧
    stat_tlen_strand a = stat_pileup "tlen_strand" a ∧
    load_tlen_strand la = load_pileup "tlen_strand" la ∧
    stat_mapq a = stat_pileup "mapq" a ∧
    load_mapq la = load_pileup "mapq" la ∧
    stat_mapq_strand a = stat_pileup "mapq_strand" a ∧
    load_mapq_strand la = load_pileup "mapq_strand" la ∧
    stat_baseq a = stat_pileup "baseq" a ∧
    load_baseq la = load_pileup "baseq" la ∧
    stat_baseq_strand a = stat_pileup "baseq_strand" a ∧
    load_baseq_strand la = load_pileup "baseq_strand" la ∧
    stat_baseq_ext a = stat_pileup "baseq_ext" a ∧
    load_baseq_ext la = load_pileup "baseq_ext" la ∧
    stat_baseq_ext_strand a = stat_pileup "baseq_ext_strand" a ∧
    load_baseq_ext_strand la = load_pileup "baseq_ext_strand" la ∧
    stat_coverage_gc a = stat_pileup "coverage_gc" a ∧
    load_coverage_gc la = load_pileup "coverage_gc" la := by
  repeat' apply And.intro
  all_goals rfl

/-- C10: for every statistic type other than coverage_gc, `stat_pileup`
never passes the window arguments to the schema pair or to the iterator,
so two calls identical except for `window_size` and `window_offset` yield
identical results. -/
theorem stat_pileup_window_independent (type : String) (h : type ≠ "coverage_gc")
    (a : PileupArgs) (ws1 ws2 : Nat) (wo1 wo2 : Option Nat) :
    stat_pileup type { a with window_size := ws1, window_offset := wo1 } =
      stat_pileup type { a with window_size := ws2, window_offset := wo2 } := by
  unfold stat_pileup
  rw [if_neg h, if_neg h]

/-- Witness for C10 at the coverage type with two different window
configurations. -/
theorem stat_pileup_window_independent_witness :
    stat_pileup "coverage"
        ⟨⟨0, []⟩, none, none, none, none, false, false, false, 8000, 10, some 3⟩ =
      stat_pileup "coverage"
        ⟨⟨0, []⟩, none, none, none, none, false, false, false, 8000, 999, none⟩ :=
  stat_pileup_window_independent "coverage" (by decide)
    ⟨⟨0, []⟩, none, none, none, none, false, false, false, 8000, 0, none⟩
    10 999 (some 3) none

/-- C8: a variation-family statistic requested without a
reference-sequence provider fails with MissingReferenceError for every
alignment source and region, that is before any record is produced; the
same holds for coverage_gc whenever its window configuration passes the
factory validation that the source performs first. -/
theorem variation_gc_missing_reference (a : PileupArgs) (href : a.fafile = none) :
    stat_pileup "variation" a = .error .missingReference ∧
    stat_pileup "variation_strand" a = .error .missingReference ∧
    (0 < a.window_size → stat_pileup "coverage_gc" a = .error .missingReference) := by
  refine ⟨?_, ?_, ?_⟩
  · unfold stat_pileup
    rw [if_neg (by decide : ¬("variation" : String) = "coverage_gc")]
    rw [show List.lookup "variation" frecs_pileup = some variationSchema from rfl, href]
    exact iter_pileup_missing_ref _ _ _ _ _ _ _ _ rfl
  · unfold stat_pileup
    rw [if_neg (by decide : ¬("variation_strand" : String) = "coverage_gc")]
    rw [show List.lookup "variation_strand" frecs_pileup = some variationStrandSchema from rfl,
      href]
    exact iter_pileup_missing_ref _ _ _ _ _ _ _ _ rfl
  · intro hws
    unfold stat_pileup
    rw [if_pos rfl]
    unfold frecs_coverage_gc
    rw [if_neg (Nat.pos_iff_ne_zero.mp hws), href]
    exact iter_pileup_missing_ref _ _ _ _ _ _ _ _ rfl

/-- Witness for C8: concrete variation and coverage_gc requests without a
reference provider. -/
theorem variation_gc_missing_reference_witness :
    stat_pileup "variation"
        ⟨⟨3, []⟩, none, none, none, none, false, false, false, 8000, 300, none⟩ =
      .error .missingReference ∧
    stat_pileup "coverage_gc"
        ⟨⟨3, []⟩, none, none, none, none, false, false, false, 8000, 300, none⟩ =
      .error .missingReference := by
  have h := variation_gc_missing_reference
    ⟨⟨3, []⟩, none, none, none, none, false, false, false, 8000, 300, none⟩ rfl
  exact ⟨h.1, h.2.2 (by decide)⟩

/-- C9: for every schema pair in the registry, and for every schema pair
produced by the GC factory, the build-record and build-pad-record
functions produce identical field name sequences (same names, same
order), for all inputs — so every record of one iteration, pad records
included, has the same schema. -/
theorem schema_pair_field_sets_identical :
    (∀ type sp, List.lookup type frecs_pileup = some sp →
      ∀ (ref ref2 : Option RefSeq) (c : PileupColumn) (p : Nat),
        (sp.frec ref c).map Prod.fst = (sp.fpad ref2 p).map Prod.fst) ∧
    (∀ ws wo sp, frecs_coverage_gc ws wo = .ok sp →
      ∀ (ref ref2 : Option RefSeq) (c : PileupColumn) (p : Nat),
        (sp.frec ref c).map Prod.fst = (sp.fpad ref2 p).map Prod.fst) := by
  constructor
  · intro type sp h ref ref2 c p
    have hm := mem_of_lookup_eq_some h
    fin_cases hm <;> rfl
  · intro ws wo sp h ref ref2 c p
    unfold frecs_coverage_gc at h
    split at h
    · exact absurd h (by simp)
    · dsimp only at h
      cases h
      rfl

/-- Witness for C9 at the coverage schema on concrete inputs. -/
theorem schema_pair_field_sets_identical_witness :
    (coverageSchema.frec none ⟨0, []⟩).map Prod.fst =
      (coverageSchema.fpad none 0).map Prod.fst :=
  schema_pair_field_sets_identical.1 "coverage" coverageSchema rfl none none ⟨0, []⟩ 0

/-- The generic facade never reports an unsupported type for a name that
is registered or is coverage_gc. -/
theorem stat_pileup_ne_unsupported_of_registered (type : String)
    (h : type = "coverage_gc" ∨ type ∈ frecs_pileup.map Prod.fst) (a : PileupArgs) :
    stat_pileup type a ≠ .error .unsupportedType := by
  unfold stat_pileup
  by_cases hgc : type = "coverage_gc"
  · rw [if_pos hgc]
    unfold frecs_coverage_gc
    rcases Nat.eq_zero_or_pos a.window_size with hws | hws
    · rw [if_pos hws]
      intro hh
      exact PileupError.noConfusion (Except.error.inj hh)
    · rw [if_neg (Nat.pos_iff_ne_zero.mp hws)]
      exact iter_pileup_ne_unsupported _ _ _ _ _ _ _ _ _
  · rcases h with h | hmem
    · exact absurd h hgc
    · rw [if_neg hgc]
      obtain ⟨sp, hsp⟩ := Option.isSome_iff_exists.mp (lookup_isSome_of_mem_keys hmem)
      rw [hsp]
      exact iter_pileup_ne_unsupported _ _ _ _ _ _ _ _ _

/-- C5 amended: `load_pileup` fails with UnsupportedType exactly when no
default dtype is registered for the type name — whether or not the caller
supplies an explicit dtype, since the default-dtype lookup of the source
runs unconditionally before the user dtype is consulted. -/
theorem load_pileup_unsupported_iff_no_default_dtype (type : String) (a : LoadArgs) :
    load_pileup type a = .error .unsupportedType ↔ config_dtype type = none := by
  constructor
  · intro h
    cases hcd : config_dtype type with
    | none => rfl
    | some dd =>
        exfalso
        have hdd := hcd
        unfold config_dtype at hdd
        have hmem : type ∈ config_dtypes.map Prod.fst :=
          List.mem_map_of_mem Prod.fst (mem_of_lookup_eq_some hdd)
        have hkeys : config_dtypes.map Prod.fst =
            frecs_pileup.map Prod.fst ++ ["coverage_gc"] := rfl
        rw [hkeys, List.mem_append] at hmem
        have hreg : type = "coverage_gc" ∨ type ∈ frecs_pileup.map Prod.fst := by
          rcases hmem with hm | hm
          · exact Or.inr hm
          · exact Or.inl (by simpa using hm)
        unfold load_pileup at h
        rw [hcd] at h
        unfold load_stats at h
        have hstat : stat_pileup type a.toPileupArgs = .error .unsupportedType := by
          cases hs : stat_pileup type a.toPileupArgs with
          | error er =>
              rw [hs] at h
              simp only [Except.map] at h
              cases h
              rfl
          | ok l =>
              rw [hs] at h
              simp [Except.map] at h
        exact stat_pileup_ne_unsupported_of_registered type hreg a.toPileupArgs hstat
  · intro h
    unfold load_pileup
    rw [h]

/-- C5 counterexample: the claim says a caller-supplied dtype prevents the
failure when no default dtype is registered; on the code, `load_pileup`
for the unregistered name bogus fails with UnsupportedType even though an
explicit dtype is supplied. -/
theorem load_pileup_supplied_dtype_still_fails :
    load_pileup "bogus"
      ⟨⟨⟨0, []⟩, none, none, none, none, false, false, false, 8000, 300, none⟩,
        some "mydtype", none⟩ = .error .unsupportedType := rfl

/-- Shifting a region from the zero-based to the one-based convention
shifts every reported position up by one and changes nothing else: the
iterator converts one-based inputs down by one at entry and adds the
convention offset back when reporting. -/
theorem iter_pileup_one_based_shift (sp : SchemaPair) (src : AlignmentSource)
    (fafile : Option RefSeq) (s0 e0 : Nat) (truncate pad : Bool) (md : Nat) :
    iter_pileup sp src fafile (some (s0 + 1)) (some (e0 + 1)) true truncate pad md =
      Except.map (List.map (fun r => StatRecord.mk (r.pos + 1) r.fields))
        (iter_pileup sp src fafile (some s0) (some e0) false truncate pad md) := by
  unfold iter_pileup
  by_cases h1 : sp.requires_ref = true ∧ fafile = none
  · rw [if_pos h1, if_pos h1]
    rfl
  · rw [if_neg h1, if_neg h1]
    rw [if_neg (show ¬((true : Bool) = true ∧
      (some (s0 + 1) = some 0 ∨ some (e0 + 1) = some 0)) by simp)]
    rw [if_neg (show ¬((false : Bool) = true ∧
      (some s0 = some 0 ∨ some e0 = some 0)) by simp)]
    have hb1 : ((if (true : Bool) = true then 1 else 0) : Nat) = 1 := rfl
    have hb0 : ((if (false : Bool) = true then 1 else 0) : Nat) = 0 := rfl
    dsimp only [Option.map_some', Option.getD_some]
    rw [hb1, hb0]
    simp only [Nat.add_sub_cancel, Nat.sub_zero]
    by_cases hlt : e0 < s0
    · rw [if_pos hlt, if_pos hlt]
      rfl
    · rw [if_neg hlt, if_neg hlt]
      simp [Except.map, List.map_map, Function.comp, Nat.add_zero]

/-- C7: for the same underlying alignment data, every position reported
with one_based true equals the corresponding zero-based position plus
one, and all other record fields are identical: the whole output of the
one-based call is the zero-based output with every position shifted up by
one, both for success values and for errors. -/
theorem one_based_positions_shift (type : String) (a : PileupArgs) (s0 e0 : Nat) :
    stat_pileup type
        { a with start := some (s0 + 1), «end» := some (e0 + 1), one_based := true } =
      Except.map (List.map (fun r => StatRecord.mk (r.pos + 1) r.fields))
        (stat_pileup type
          { a with start := some s0, «end» := some e0, one_based := false }) := by
  unfold stat_pileup
  by_cases hgc : type = "coverage_gc"
  · rw [if_pos hgc, if_pos hgc]
    dsimp only
    cases frecs_coverage_gc a.window_size a.window_offset with
    | error er => rfl
    | ok sp =>
        exact iter_pileup_one_based_shift sp a.alignmentfile a.fafile s0 e0
          a.truncate a.pad a.max_depth
  · rw [if_neg hgc, if_neg hgc]
    dsimp only
    cases List.lookup type frecs_pileup with
    | none => rfl
    | some sp =>
        exact iter_pileup_one_based_shift sp a.alignmentfile a.fafile s0 e0
          a.truncate a.pad a.max_depth

/-- Restricting every column of the source to its first `max_depth`
segments beforehand does not change the iterator output, because the
iterator itself only ever considers the first `max_depth` segments of a
column. -/
theorem iter_pileup_capSource (sp : SchemaPair) (src : AlignmentSource)
    (fafile : Option RefSeq) (start «end» : Option Nat)
    (one_based truncate pad : Bool) (md : Nat) :
    iter_pileup sp (capSource md src) fafile start «end» one_based truncate pad md =
      iter_pileup sp src fafile start «end» one_based truncate pad md := by
  unfold iter_pileup capSource
  cases truncate <;> cases pad <;>
    simp [List.filter_map, List.map_map, List.any_map, Function.comp_def,
      List.take_take, Nat.min_self]

/-- With `max_depth = 0` no segment is considered: every record emitted by
the iterator for the coverage schema carries the all-zero field list of
the coverage pad record. -/
theorem iter_pileup_zero_depth_fields (src : AlignmentSource) (fafile : Option RefSeq)
    (start «end» : Option Nat) (one_based truncate pad : Bool) (recs : List StatRecord)
    (h : iter_pileup coverageSchema src fafile start «end» one_based truncate pad 0 =
      .ok recs) :
    ∀ r ∈ recs, r.fields = [(FieldName.reads_all, 0), (FieldName.reads_pp, 0)] := by
  unfold iter_pileup at h
  split at h
  · exact absurd h (by simp)
  split at h
  · exact absurd h (by simp)
  split at h <;> dsimp only at h <;> split at h <;>
    first
      | exact Except.noConfusion h
      | (cases h
         intro r hr
         simp only [List.mem_map] at hr
         obtain ⟨x, hx, rfl⟩ := hr
         rw [List.mem_insertionSort] at hx
         rcases List.mem_append.mp hx with hc | hp
         · simp only [List.mem_map] at hc
           obtain ⟨c, -, rfl⟩ := hc
           simp [rec_coverage, cnt, coverageSchema]
         · by_cases hpa : pad = true
           · rw [if_pos hpa] at hp
             simp only [List.mem_map] at hp
             obtain ⟨p, -, rfl⟩ := hp
             rfl
           · rw [if_neg hpa] at hp
             exact absurd hp (List.not_mem_nil x))

/-- With `max_depth = 0` the coverage iterator output is unchanged by
replacing every record with the pad record at its position: every emitted
record already equals that pad record. -/
theorem iter_pileup_zero_depth_pad_equiv (src : AlignmentSource) (fafile : Option RefSeq)
    (start «end» : Option Nat) (one_based truncate pad : Bool) :
    iter_pileup coverageSchema src fafile start «end» one_based truncate pad 0 =
      Except.map
        (List.map (fun r => StatRecord.mk r.pos (rec_coverage_pad fafile r.pos)))
        (iter_pileup coverageSchema src fafile start «end» one_based truncate pad 0) := by
  cases h : iter_pileup coverageSchema src fafile start «end» one_based truncate pad 0 with
  | error er => rfl
  | ok recs =>
      have hz := iter_pileup_zero_depth_fields src fafile start «end»
        one_based truncate pad recs h
      simp only [Except.map]
      congr 1
      nth_rewrite 1 [← List.map_id recs]
      apply List.map_congr_left
      intro r hr
      have hf := hz r hr
      show r = StatRecord.mk r.pos (rec_coverage_pad fafile r.pos)
      rw [show rec_coverage_pad fafile r.pos =
        [(FieldName.reads_all, 0), (FieldName.reads_pp, 0)] from rfl, ← hf]

/-- C6: for every schema and region, restricting every column to its first
`max_depth` segments in provider order leaves the output unchanged (a
column with more than `max_depth` segments produces the same record as one
with exactly the first `max_depth`); and with `max_depth = 0` every
emitted record of the coverage statistic equals the pad record at its
position (all counts zero) even when reads overlap the position. -/
theorem max_depth_caps_segments (sp : SchemaPair) (src : AlignmentSource)
    (fafile : Option RefSeq) (start «end» : Option Nat)
    (one_based truncate pad : Bool) (md : Nat) :
    iter_pileup sp (capSource md src) fafile start «end» one_based truncate pad md =
      iter_pileup sp src fafile start «end» one_based truncate pad md ∧
    iter_pileup coverageSchema src fafile start «end» one_based truncate pad 0 =
      Except.map
        (List.map (fun r => StatRecord.mk r.pos (rec_coverage_pad fafile r.pos)))
        (iter_pileup coverageSchema src fafile start «end» one_based truncate pad 0) :=
  ⟨iter_pileup_capSource sp src fafile start «end» one_based truncate pad md,
   iter_pileup_zero_depth_pad_equiv src fafile start «end» one_based truncate pad⟩

/-- Core counting argument for padded, truncated iteration: merging the
in-range column entries of a strictly position-sorted column list with the
pad entries for the unvisited positions of `[s, e)` yields, in increasing
position order, exactly the positions `s, s+1, ..., e-1`, each once. -/
theorem sort_keys_eq_range (cols : List PileupColumn) (s e : Nat)
    (hsorted : cols.Pairwise (fun c d => c.pos < d.pos))
    (f : PileupColumn → List (FieldName × Int)) (g : Nat → List (FieldName × Int)) :
    (List.insertionSort posLe
        ((cols.filter (fun c => decide (s ≤ c.pos ∧ c.pos < e))).map
            (fun c => (c.pos, f c)) ++
          ((List.range' s (e - s)).filter
              (fun p => !(cols.any (fun c => c.pos == p)))).map
            (fun p => (p, g p)))).map Prod.fst = List.range' s (e - s) := by
  have hkA : ((cols.filter (fun c => decide (s ≤ c.pos ∧ c.pos < e))).map
      (fun c => (c.pos, f c))).map Prod.fst =
      (cols.filter (fun c => decide (s ≤ c.pos ∧ c.pos < e))).map PileupColumn.pos := by
    rw [List.map_map]
    rfl
  have hkB : (((List.range' s (e - s)).filter
      (fun p => !(cols.any (fun c => c.pos == p)))).map (fun p => (p, g p))).map
        Prod.fst =
      (List.range' s (e - s)).filter (fun p => !(cols.any (fun c => c.pos == p))) := by
    rw [List.map_map]
    exact List.map_id'' (fun _ => rfl) _
  have hndA : (((cols.filter (fun c => decide (s ≤ c.pos ∧ c.pos < e))).map
      (fun c => (c.pos, f c))).map Prod.fst).Nodup := by
    rw [hkA]
    exact List.Pairwise.map PileupColumn.pos (fun a b hab => Nat.ne_of_lt hab)
      (hsorted.filter _)
  have hndB : ((((List.range' s (e - s)).filter
      (fun p => !(cols.any (fun c => c.pos == p)))).map (fun p => (p, g p))).map
        Prod.fst).Nodup := by
    rw [hkB]
    exact (List.nodup_range' s (e - s)).filter _
  have hdisj : (((cols.filter (fun c => decide (s ≤ c.pos ∧ c.pos < e))).map
      (fun c => (c.pos, f c))).map Prod.fst).Disjoint
      ((((List.range' s (e - s)).filter
        (fun p => !(cols.any (fun c => c.pos == p)))).map (fun p => (p, g p))).map
          Prod.fst) := by
    intro x hxA hxB
    rw [hkA] at hxA
    rw [hkB] at hxB
    obtain ⟨c, hc, rfl⟩ := List.mem_map.mp hxA
    have hcc := List.mem_of_mem_filter hc
    have hw := (List.mem_filter.mp hxB).2
    have hany : cols.any (fun d => d.pos == c.pos) = true :=
      List.any_eq_true.mpr ⟨c, hcc, by simp⟩
    simp only [hany] at hw
    exact Bool.noConfusion hw
  have hmem : ∀ x : Nat,
      (x ∈ ((cols.filter (fun c => decide (s ≤ c.pos ∧ c.pos < e))).map
          (fun c => (c.pos, f c))).map Prod.fst ++
        (((List.range' s (e - s)).filter
          (fun p => !(cols.any (fun c => c.pos == p)))).map (fun p => (p, g p))).map
            Prod.fst) ↔ x ∈ List.range' s (e - s) := by
    intro x
    constructor
    · intro hx
      rcases List.mem_append.mp hx with hx | hx
      · rw [hkA] at hx
        obtain ⟨c, hc, rfl⟩ := List.mem_map.mp hx
        have hq := of_decide_eq_true (List.mem_filter.mp hc).2
        rw [List.mem_range'_1]
        omega
      · rw [hkB] at hx
        exact List.mem_of_mem_filter hx
    · intro hx
      rw [List.mem_range'_1] at hx
      cases hb : cols.any (fun c => c.pos == x) with
      | true =>
          apply List.mem_append.mpr
          left
          rw [hkA]
          obtain ⟨c, hc, hcx⟩ := List.any_eq_true.mp hb
          have hcx' : c.pos = x := by simpa using hcx
          refine List.mem_map.mpr ⟨c, List.mem_filter.mpr ⟨hc, ?_⟩, hcx'⟩
          apply decide_eq_true
          omega
      | false =>
          apply List.mem_append.mpr
          right
          rw [hkB]
          refine List.mem_filter.mpr ⟨List.mem_range'_1.mpr hx, ?_⟩
          show (!(cols.any (fun c => c.pos == x))) = true
          rw [hb]
          rfl
  have hperm : ((List.insertionSort posLe
      ((cols.filter (fun c => decide (s ≤ c.pos ∧ c.pos < e))).map
          (fun c => (c.pos, f c)) ++
        ((List.range' s (e - s)).filter
          (fun p => !(cols.any (fun c => c.pos == p)))).map
          (fun p => (p, g p)))).map Prod.fst).Perm
      (((cols.filter (fun c => decide (s ≤ c.pos ∧ c.pos < e))).map
          (fun c => (c.pos, f c))).map Prod.fst ++
        (((List.range' s (e - s)).filter
          (fun p => !(cols.any (fun c => c.pos == p)))).map (fun p => (p, g p))).map
            Prod.fst) := by
    have hp := (List.perm_insertionSort posLe
      ((cols.filter (fun c => decide (s ≤ c.pos ∧ c.pos < e))).map
          (fun c => (c.pos, f c)) ++
        ((List.range' s (e - s)).filter
          (fun p => !(cols.any (fun c => c.pos == p)))).map
          (fun p => (p, g p)))).map Prod.fst
    rwa [List.map_append] at hp
  have hndkeys := (hperm.nodup_iff).mpr (List.Nodup.append hndA hndB hdisj)
  have hpermrange := (List.perm_ext_iff_of_nodup hndkeys
    (List.nodup_range' s (e - s))).mpr (fun x => by rw [hperm.mem_iff]; exact hmem x)
  have hsortkeys := List.Pairwise.map Prod.fst (fun a b hab => hab)
    (List.sorted_insertionSort posLe
      ((cols.filter (fun c => decide (s ≤ c.pos ∧ c.pos < e))).map
          (fun c => (c.pos, f c)) ++
        ((List.range' s (e - s)).filter
          (fun p => !(cols.any (fun c => c.pos == p)))).map
          (fun p => (p, g p))))
  exact List.eq_of_perm_of_sorted hpermrange hsortkeys (List.pairwise_le_range' s (e - s))

/-- Zero-based padded, truncated iteration over a sorted source emits the
records at exactly the positions `s, ..., e-1`, in order. -/
theorem iter_pad_truncate_zero (sp : SchemaPair) (src : AlignmentSource)
    (fafile : Option RefSeq) (s e md : Nat)
    (hsorted : src.columns.Pairwise (fun c d => c.pos < d.pos))
    (href : ¬(sp.requires_ref = true ∧ fafile = none))
    (hse : s ≤ e) :
    ∃ recs,
      iter_pileup sp src fafile (some s) (some e) false true true md = .ok recs ∧
        recs.map StatRecord.pos = List.range' s (e - s) := by
  unfold iter_pileup
  rw [if_neg href]
  rw [if_neg (show ¬((false : Bool) = true ∧
    (some s = some 0 ∨ some e = some 0)) by simp)]
  have hb0 : ((if (false : Bool) = true then 1 else 0) : Nat) = 0 := rfl
  dsimp only [Option.map_some', Option.getD_some]
  rw [hb0]
  simp only [Nat.sub_zero]
  rw [if_neg (Nat.not_lt.mpr hse)]
  simp only [if_true]
  refine ⟨_, rfl, ?_⟩
  rw [List.map_map]
  have hcomp : (StatRecord.pos ∘ fun x : Nat × List (FieldName × Int) =>
      StatRecord.mk (x.1 + 0) x.2) = Prod.fst := by
    funext x
    simp
  rw [hcomp]
  exact sort_keys_eq_range src.columns s e hsorted
    (fun c => sp.frec fafile ⟨c.pos, c.segments.take md⟩) (fun p => sp.fpad fafile p)

/-- C1 amended: for every region with both pad and truncate set, over a
forward-ordered alignment source and a valid region, the iteration emits
exactly `end - start` records, one per genome position of the region, with
positions strictly increasing and no gaps — the reported positions are
exactly `start, start+1, ..., end-1` in the coordinate convention of the
call. -/
theorem pad_truncate_emits_exact_positions (sp : SchemaPair) (src : AlignmentSource)
    (fafile : Option RefSeq) (s0 e0 : Nat) (ob : Bool) (md : Nat)
    (hsorted : src.columns.Pairwise (fun c d => c.pos < d.pos))
    (href : ¬(sp.requires_ref = true ∧ fafile = none))
    (hob : ob = true → 1 ≤ s0 ∧ 1 ≤ e0)
    (hse : s0 ≤ e0) :
    ∃ recs,
      iter_pileup sp src fafile (some s0) (some e0) ob true true md = .ok recs ∧
        recs.map StatRecord.pos = List.range' s0 (e0 - s0) ∧
        recs.length = e0 - s0 := by
  cases ob with
  | false =>
      obtain ⟨recs, hok, hpos⟩ :=
        iter_pad_truncate_zero sp src fafile s0 e0 md hsorted href hse
      refine ⟨recs, hok, hpos, ?_⟩
      have hl : recs.length = (recs.map StatRecord.pos).length :=
        (List.length_map recs StatRecord.pos).symm
      rw [hl, hpos, List.length_range']
  | true =>
      obtain ⟨h1s, h1e⟩ := hob rfl
      have hse' : s0 - 1 ≤ e0 - 1 := by omega
      obtain ⟨recs, hok, hpos⟩ :=
        iter_pad_truncate_zero sp src fafile (s0 - 1) (e0 - 1) md hsorted href hse'
      have hshift := iter_pileup_one_based_shift sp src fafile (s0 - 1) (e0 - 1)
        true true md
      rw [Nat.sub_add_cancel h1s, Nat.sub_add_cancel h1e, hok] at hshift
      refine ⟨recs.map (fun r => StatRecord.mk (r.pos + 1) r.fields),
        by rw [hshift]; rfl, ?_, ?_⟩
      · rw [List.map_map]
        have hcomp : (StatRecord.pos ∘ fun r : StatRecord =>
            StatRecord.mk (r.pos + 1) r.fields) = fun r : StatRecord => 1 + r.pos := by
          funext r
          simp [Nat.add_comm]
        rw [hcomp]
        have hmm : (recs.map (fun r : StatRecord => 1 + r.pos)) =
            (recs.map StatRecord.pos).map (fun x => 1 + x) := by
          rw [List.map_map]
          rfl
        rw [hmm, hpos, List.map_add_range']
        have h1 : 1 + (s0 - 1) = s0 := by omega
        have h2 : e0 - 1 - (s0 - 1) = e0 - s0 := by omega
        rw [h1, h2]
      · have hl : (recs.map (fun r => StatRecord.mk (r.pos + 1) r.fields)).length =
            recs.length := List.length_map recs _
        rw [hl]
        have hl2 : recs.length = (recs.map StatRecord.pos).length :=
          (List.length_map recs StatRecord.pos).symm
        rw [hl2, hpos, List.length_range']
        omega

/-- Witness for the amended C1 at a concrete source and region. -/
theorem pad_truncate_emits_exact_positions_witness :
    ∃ recs,
      iter_pileup coverageSchema
          ⟨4, [⟨1, [⟨false, 30, 40, 200, true, 'A', SegOp.matched⟩]⟩]⟩
          none (some 0) (some 3) false true true 8000 = .ok recs ∧
        recs.map StatRecord.pos = List.range' 0 3 ∧
        recs.length = 3 := by
  have h := pad_truncate_emits_exact_positions coverageSchema
    ⟨4, [⟨1, [⟨false, 30, 40, 200, true, 'A', SegOp.matched⟩]⟩]⟩
    none 0 3 false 8000 (by simp) (by simp [coverageSchema]) (by simp) (by omega)
  simpa using h

/-- C1 counterexample: with pad set but truncate not set, a column lying
outside the requested region is still emitted, so the region `[1, 2)` over
a source with one column at position 0 yields two records while
`end - start = 1` — the claim fails for regions with pad alone. -/
theorem pad_without_truncate_count_counterexample :
    (iter_pileup coverageSchema
        ⟨4, [⟨0, [⟨false, 30, 40, 200, true, 'A', SegOp.matched⟩]⟩]⟩
        none (some 1) (some 2) false false true 8000).map List.length = .ok 2 ∧
      (2 : Nat) ≠ 2 - 1 :=
  ⟨rfl, by decide⟩

end Pysamstats
